import Mathlib

/-!
Verification of the video listing pipeline in `src/components/CategorySection.tsx`:
the grid column selector (`getOptimalColumns`), the XML listing parser
(`parseXmlResponse`), and the data-processing / normalization step of
`fetchCategoryVideos` (lines 165-180 of the source), together with the
pre-fetch/post-response format resolution (lines 130-152).

JavaScript values flowing through the pipeline are modelled by the `Json`
inductive below (numbers as integers, with a distinguished `nan` constructor
for the `NaN` a failed `parseInt` produces; every numeric value occurring in
the pipeline is integral).  JavaScript objects are modelled as association
lists in insertion order; `setField` models property assignment / the tail of
an object-literal spread.  XML DOM documents, as produced by `DOMParser`, are
modelled by the `XmlNode` tree; `elementsByTag` models `getElementsByTagName`
(all descendant elements in document order, plus the root itself at document
level).  All functions are total: the source's no-throw contract corresponds
to totality of the Lean translations.
-/

namespace Otva

/-- Model of a JavaScript value as it occurs in this pipeline.  Numbers are
integers (`nan` stands for the JS `NaN` that `parseInt` yields on
non-numeric input); objects keep their fields in insertion order. -/
inductive Json where
  | null : Json
  | bool (b : Bool) : Json
  | str (s : String) : Json
  | num (n : Int) : Json
  | nan : Json
  | arr (elems : List Json) : Json
  | obj (fields : List (String × Json)) : Json

/-- JS truthiness of a value (`NaN`, `0`, `""`, `null`, `false` are falsy). -/
def truthy : Json → Bool
  | Json.null => false
  | Json.bool b => b
  | Json.str s => !(s == "")
  | Json.num n => !(n == 0)
  | Json.nan => false
  | Json.arr _ => true
  | Json.obj _ => true

/-- JS truthiness of a possibly-`undefined` value (`undefined` is falsy). -/
def truthyOpt : Option Json → Bool
  | none => false
  | some v => truthy v

/-- First-match lookup of a field in an object's field list (JS objects have
unique keys, so first match is the field). -/
def lookupField : List (String × Json) → String → Option Json
  | [], _ => none
  | kv :: rest, key => if key == kv.1 then some kv.2 else lookupField rest key

/-- JS property read `v.key`; `none` models `undefined` (missing property, or
a receiver that is not an object). -/
def getMember : Json → String → Option Json
  | Json.obj fs, key => lookupField fs key
  | _, _ => none

/-- `Array.isArray(v)` for a possibly-`undefined` value. -/
def isArrayOpt : Option Json → Bool
  | some (Json.arr _) => true
  | _ => false

/-- Property assignment `o[key] = v` on an object's field list: an existing
binding for `key` is dropped and the new one appended. -/
def setField (o : List (String × Json)) (key : String) (v : Json) : List (String × Json) :=
  o.filter (fun kv => kv.1 != key) ++ [(key, v)]

/-- The own enumerable fields contributed by `{...v}` object spread:
an object's fields; an array's or string's indexed entries; nothing for
primitives. -/
def spreadFields : Json → List (String × Json)
  | Json.obj fs => fs
  | Json.arr xs => xs.enum.map (fun p => (toString p.1, p.2))
  | Json.str s => s.toList.enum.map (fun p => (toString p.1, Json.str (String.singleton p.2)))
  | _ => []

/-- The `VideoApi` source descriptor fields used by the pipeline
(`api.id`, `api.name`, `api.url`). -/
structure VideoApi where
  id : String
  name : String
  url : String

/-- Lines 170-175 of the source: `{...item, source_name: api.name,
source_code: api.id, api_url: api.url}` — spread the upstream item, then
stamp the three source identity fields, overwriting any upstream values. -/
def normalizeItem (api : VideoApi) (item : Json) : Json :=
  Json.obj
    (setField
      (setField
        (setField (spreadFields item) "source_name" (Json.str api.name))
        "source_code" (Json.str api.id))
      "api_url" (Json.str api.url))

/-- The component state touched by the data-processing step:
`currentPage`, `pageCount` (a JS value, initially the number 1) and
`videos`. -/
structure ComponentState where
  currentPage : Int
  pageCount : Json
  videos : List Json

/-- The component's initial state: page 1, page count 1, no videos. -/
def initState : ComponentState := ⟨1, Json.num 1, []⟩

/-- Lines 165-180 of the source: `if (data && Array.isArray(data.list))`
then optionally `setPageCount(data.pagecount)` (only when truthy) and
`setVideos(data.list.map(...))`; otherwise `setVideos([])`.  Total — the
source's catch-all guarantees no exception reaches the caller. -/
def processData (api : VideoApi) (data : Json) (st : ComponentState) : ComponentState :=
  if truthy data then
    match getMember data "list" with
    | some (Json.arr items) =>
        let st1 := match getMember data "pagecount" with
          | some pc => if truthy pc then { st with pageCount := pc } else st
          | none => st
        { st1 with videos := items.map (normalizeItem api) }
    | _ => { st with videos := [] }
  else { st with videos := [] }

/-- An XML DOM node: an element with tag, attributes and children, or a text
node.  A parsed document is represented by its root node. -/
inductive XmlNode where
  | element (tag : String) (attrs : List (String × String)) (children : List XmlNode)
  | text (s : String)

mutual

/-- DOM `textContent` of a node: concatenation of all descendant text in
document order. -/
def textContent : XmlNode → String
  | XmlNode.text s => s
  | XmlNode.element _ _ cs => textContentList cs

/-- `textContent` of a list of sibling nodes, concatenated in order. -/
def textContentList : List XmlNode → String
  | [] => ""
  | c :: cs => textContent c ++ textContentList cs

end

mutual

/-- All elements with the given tag in the subtree rooted at a node,
in document (pre-)order, the root included when it matches — this is
document-level `getElementsByTagName`. -/
def elementsByTag (tag : String) : XmlNode → List XmlNode
  | XmlNode.text _ => []
  | XmlNode.element t attrs cs =>
      (if t == tag then [XmlNode.element t attrs cs] else []) ++ elementsByTagList tag cs

/-- `elementsByTag` over a list of sibling subtrees, concatenated in order. -/
def elementsByTagList (tag : String) : List XmlNode → List XmlNode
  | [] => []
  | c :: cs => elementsByTag tag c ++ elementsByTagList tag cs

end

/-- DOM `element.getElementsByTagName(tag)`: all matching descendants of the
node, the node itself excluded. -/
def getElementsByTagName (n : XmlNode) (tag : String) : List XmlNode :=
  match n with
  | XmlNode.text _ => []
  | XmlNode.element _ _ cs => elementsByTagList tag cs

/-- DOM `getAttribute`: `none` models the `null` returned when the attribute
is absent. -/
def getAttr (n : XmlNode) (key : String) : Option String :=
  match n with
  | XmlNode.text _ => none
  | XmlNode.element _ attrs _ => lookupAttr attrs key
where
  lookupAttr : List (String × String) → String → Option String
    | [], _ => none
    | kv :: rest, k => if k == kv.1 then some kv.2 else lookupAttr rest k

/-- The JS idiom `x || d` on a nullable string: the default is taken when the
value is `null` or the empty string. -/
def orElseStr (o : Option String) (d : String) : String :=
  match o with
  | some s => if s == "" then d else s
  | none => d

/-- Leading decimal digits of a character list. -/
def leadingDigits : List Char → List Char
  | [] => []
  | c :: cs => if c.isDigit then c :: leadingDigits cs else []

/-- Value of a digit list, most significant first. -/
def digitsToNat : List Char → Nat → Nat
  | [], acc => acc
  | c :: cs, acc => digitsToNat cs (acc * 10 + (c.toNat - '0'.toNat))

/-- Whitespace as skipped by `parseInt` / trimmed by `String.prototype.trim`
(the common ASCII whitespace; exotic Unicode whitespace is elided). -/
def isWs (c : Char) : Bool := c == ' ' || c == '\t' || c == '\n' || c == '\r'

/-- JS `parseInt(s)` in radix 10: skip leading whitespace, optional sign,
then leading digits; `none` models the `NaN` returned when no digits follow.
(The hexadecimal `0x` autodetection of the builtin is elided — no input in
this pipeline uses it.) -/
def parseIntJs (s : String) : Option Int :=
  match s.toList.dropWhile isWs with
  | '-' :: rest =>
      let ds := leadingDigits rest
      if ds.isEmpty then none else some (-(Int.ofNat (digitsToNat ds 0)))
  | '+' :: rest =>
      let ds := leadingDigits rest
      if ds.isEmpty then none else some (Int.ofNat (digitsToNat ds 0))
  | cs =>
      let ds := leadingDigits cs
      if ds.isEmpty then none else some (Int.ofNat (digitsToNat ds 0))

/-- A `parseInt` result as the JS number it is: `NaN` when no digits parsed. -/
def optIntToJson : Option Int → Json
  | some n => Json.num n
  | none => Json.nan

/-- The ten tag-to-field extractions of lines 203-214 of the source. -/
def xmlFieldMap : List (String × String) :=
  [("id", "vod_id"), ("name", "vod_name"), ("pic", "vod_pic"), ("type", "type_name"),
   ("year", "vod_year"), ("area", "vod_area"), ("director", "vod_director"),
   ("actor", "vod_actor"), ("note", "vod_remarks"), ("des", "vod_content")]

/-- Lines 216-221 of the source: for each `(tag, field)` pair in order, if the
video element has a descendant with that tag, assign the first one's text
content to `videoData[field]`; otherwise leave the field absent. -/
def applyFields (video : XmlNode) : List (String × String) → List (String × Json) → List (String × Json)
  | [], o => o
  | tf :: rest, o =>
      applyFields video rest
        (match (getElementsByTagName video tf.1).head? with
         | some el => setField o tf.2 (Json.str (textContent el))
         | none => o)

/-- Lines 229-238 of the source, inner loop: for each `dd` element in order,
read its `flag` attribute (defaulting to `"default"` when absent or empty,
per `getAttribute(..) || 'default'`) and its text content; push both onto the
parallel accumulators only when the text content is truthy (non-empty). -/
def pushDds : List XmlNode → List String × List String → List String × List String
  | [], acc => acc
  | dd :: rest, acc =>
      pushDds rest
        (if textContent dd == "" then acc
         else (acc.1 ++ [textContent dd], acc.2 ++ [orElseStr (getAttr dd "flag") "default"]))

/-- Lines 227-239 of the source, outer loop: iterate the `dl` elements in
document order, feeding each one's `dd` descendants to `pushDds`. -/
def pushDls : List XmlNode → List String × List String → List String × List String
  | [], acc => acc
  | dl :: rest, acc => pushDls rest (pushDds (getElementsByTagName dl "dd") acc)

/-- The parallel `playUrls` / `playFroms` sequences collected for one video
element (lines 223-239 of the source). -/
def collectPlay (video : XmlNode) : List String × List String :=
  pushDls (getElementsByTagName video "dl") ([], [])

/-- Lines 199-244 of the source: build one record object from a `video`
element — the ten named fields, then `vod_play_url` and `vod_play_from` as
the `"$$$"`-joins of the parallel play sequences. -/
def parseVideo (video : XmlNode) : Json :=
  Json.obj
    (setField
      (setField (applyFields video xmlFieldMap [])
        "vod_play_url" (Json.str (String.intercalate "$$$" (collectPlay video).1)))
      "vod_play_from" (Json.str (String.intercalate "$$$" (collectPlay video).2)))

/-- Lines 192-262 of the source, `parseXmlResponse` from the parsed DOM
onward: map every `video` element to a record, read `page` / `pagecount`
from the first `list` element (each defaulting to the string `'1'` when the
element or attribute is absent, then going through `parseInt`), and return
the JSON-shaped envelope `{code, list, page, pagecount}`. -/
def parseXmlResponse (doc : XmlNode) : Json :=
  Json.obj
    [("code", Json.num 1),
     ("list", Json.arr ((elementsByTag "video" doc).map parseVideo)),
     ("page", optIntToJson
        (match (elementsByTag "list" doc).head? with
         | some le => parseIntJs (orElseStr (getAttr le "page") "1")
         | none => some 1)),
     ("pagecount", optIntToJson
        (match (elementsByTag "list" doc).head? with
         | some le => parseIntJs (orElseStr (getAttr le "pagecount") "1")
         | none => some 1))]

/-- Whether `pat` occurs as a substring of `s` (JS `String.prototype.includes`). -/
def strContains (s pat : String) : Bool :=
  (List.range (s.length + 1)).any (fun i => (s.toList.drop i).take pat.length == pat.toList)

/-- JS `text.trim()` as a character list (ASCII whitespace trimmed). -/
def jsTrim (s : String) : List Char :=
  ((s.toList.dropWhile isWs).reverse.dropWhile isWs).reverse

/-- JS `text.trim().startsWith('<?xml')`. -/
def startsWithXmlDecl (s : String) : Bool :=
  (jsTrim s).take 5 == "<?xml".toList

/-- Which parser a response is handed to. -/
inductive DataFormat where
  | xml : DataFormat
  | json : DataFormat
deriving DecidableEq

/-- Lines 130-163 of the source: the pre-fetch hint `api.url.includes('/xml')`
selects the branch; only the XML branch re-checks the response (content-type
header containing `xml`, else body sniff) — the JSON branch parses the body
as JSON unconditionally.  `contentType` is the header value or `""` when the
header is absent, per line 145. -/
def resolveFormat (apiUrl contentType text : String) : DataFormat :=
  if strContains apiUrl "/xml" then
    if strContains contentType "xml" || startsWithXmlDecl text then DataFormat.xml
    else DataFormat.json
  else DataFormat.json

/-- Modelled from the spec: the "authoritative" post-response format check of
spec section 4.1/4.4 — content-type header containing `xml`, falling back to
sniffing whether the trimmed body starts with an XML declaration — which the
spec asserts always determines the parser, regardless of the URL hint. -/
def authoritativeFormat (contentType text : String) : DataFormat :=
  if strContains contentType "xml" || startsWithXmlDecl text then DataFormat.xml
  else DataFormat.json

/-- The default responsive token returned for a count of 0 and by the final
fallback (lines 19 and 58 of the source). -/
def defaultCols : String := "grid-cols-2 sm:grid-cols-3 md:grid-cols-4 lg:grid-cols-5 xl:grid-cols-6"

/-- Lines 21-27 of the source: all positive divisors of `n`, ascending. -/
def findDivisors (n : Nat) : List Nat :=
  (List.range' 1 n).filter (fun i => n % i == 0)

/-- The fixed token map of lines 32-40 of the source. -/
def colsMap : Nat → Option String
  | 2 => some "grid-cols-2 sm:grid-cols-2 md:grid-cols-2 lg:grid-cols-2 xl:grid-cols-2"
  | 3 => some "grid-cols-2 sm:grid-cols-3 md:grid-cols-3 lg:grid-cols-3 xl:grid-cols-3"
  | 4 => some "grid-cols-2 sm:grid-cols-3 md:grid-cols-4 lg:grid-cols-4 xl:grid-cols-4"
  | 5 => some "grid-cols-2 sm:grid-cols-3 md:grid-cols-4 lg:grid-cols-5 xl:grid-cols-5"
  | 6 => some "grid-cols-2 sm:grid-cols-3 md:grid-cols-4 lg:grid-cols-5 xl:grid-cols-6"
  | 7 => some "grid-cols-2 sm:grid-cols-3 md:grid-cols-4 lg:grid-cols-5 xl:grid-cols-7"
  | 8 => some "grid-cols-2 sm:grid-cols-3 md:grid-cols-4 lg:grid-cols-5 xl:grid-cols-8"
  | _ => none

/-- Lines 31-42 of the source: `getResponsiveCols` — the map entry when
present, the template string for unmapped column counts otherwise. -/
def getResponsiveCols (cols : Nat) : String :=
  match colsMap cols with
  | some s => s
  | none => "grid-cols-2 sm:grid-cols-3 md:grid-cols-" ++ toString cols

/-- Line 44 of the source: the candidate preference order. -/
def preferredCols : List Nat := [4, 5, 6, 3, 2]

/-- `Math.ceil(a / b)` for positive `b` (every candidate is positive). -/
def ceilDiv (a b : Nat) : Nat := (a + b - 1) / b

/-- The second-pass acceptance condition of line 53 of the source:
`count % cols === 0 || cols % count === 0 ||
Math.ceil(count / cols) * cols - count <= 2`. -/
def relaxedFit (count cols : Nat) : Bool :=
  count % cols == 0 || cols % count == 0 || decide (ceilDiv count cols * cols - count ≤ 2)

/-- Lines 18-59 of the source: `getOptimalColumns` — default for 0, else the
first preferred candidate dividing `count`, else the first accepted by the
relaxed pass, else the default token. -/
def getOptimalColumns (count : Nat) : String :=
  if count = 0 then defaultCols
  else
    match preferredCols.find? (fun cols => (findDivisors count).contains cols) with
    | some cols => getResponsiveCols cols
    | none =>
        match preferredCols.find? (fun cols => relaxedFit count cols) with
        | some cols => getResponsiveCols cols
        | none => defaultCols

end Otva

namespace Otva

/-! Helper lemmas about object field lookup and the parsing functions. -/

theorem getMember_obj (fs : List (String × Json)) (key : String) :
    getMember (Json.obj fs) key = lookupField fs key := rfl

theorem lookupField_append (l1 l2 : List (String × Json)) (key : String) :
    lookupField (l1 ++ l2) key =
      match lookupField l1 key with
      | some v => some v
      | none => lookupField l2 key := by
  induction l1 with
  | nil => simp [lookupField]
  | cons kv rest ih =>
      by_cases h : (key == kv.1) = true
      · simp [lookupField, h]
      · simp [lookupField, h, ih]

theorem lookupField_filter_self (o : List (String × Json)) (key : String) :
    lookupField (o.filter (fun kv => kv.1 != key)) key = none := by
  induction o with
  | nil => rfl
  | cons kv rest ih =>
      by_cases h : kv.1 = key
      · simp [List.filter_cons, h, ih]
      · have h2 : key ≠ kv.1 := fun he => h he.symm
        simp [List.filter_cons, h, lookupField, h2, ih]

theorem lookupField_filter_ne (o : List (String × Json)) (key k : String) (h : key ≠ k) :
    lookupField (o.filter (fun kv => kv.1 != k)) key = lookupField o key := by
  induction o with
  | nil => rfl
  | cons kv rest ih =>
      by_cases h1 : kv.1 = k
      · have h2 : key ≠ kv.1 := fun he => h (he.trans h1)
        simp [List.filter_cons, h1, lookupField, h2, h, ih]
      · simp [List.filter_cons, h1, lookupField, ih]

theorem lookupField_setField_self (o : List (String × Json)) (key : String) (v : Json) :
    lookupField (setField o key v) key = some v := by
  simp [setField, lookupField_append, lookupField_filter_self, lookupField]

theorem lookupField_setField_ne (o : List (String × Json)) (key k : String) (v : Json)
    (h : key ≠ k) :
    lookupField (setField o k v) key = lookupField o key := by
  have h2 : (key == k) = false := beq_eq_false_iff_ne.mpr h
  rw [setField, lookupField_append, lookupField_filter_ne o key k h]
  cases hlk : lookupField o key with
  | some v => rfl
  | none => simp [lookupField, h2]

theorem getMember_normalizeItem_stamps (api : VideoApi) (item : Json) :
    getMember (normalizeItem api item) "source_name" = some (Json.str api.name) ∧
    getMember (normalizeItem api item) "source_code" = some (Json.str api.id) ∧
    getMember (normalizeItem api item) "api_url" = some (Json.str api.url) := by
  unfold normalizeItem
  refine ⟨?_, ?_, ?_⟩
  · rw [getMember_obj, lookupField_setField_ne _ _ _ _ (by decide),
      lookupField_setField_ne _ _ _ _ (by decide), lookupField_setField_self]
  · rw [getMember_obj, lookupField_setField_ne _ _ _ _ (by decide), lookupField_setField_self]
  · rw [getMember_obj, lookupField_setField_self]

theorem getMember_normalizeItem_other (api : VideoApi) (item : Json) (key : String)
    (h1 : key ≠ "source_name") (h2 : key ≠ "source_code") (h3 : key ≠ "api_url") :
    getMember (normalizeItem api item) key = lookupField (spreadFields item) key := by
  unfold normalizeItem
  rw [getMember_obj, lookupField_setField_ne _ _ _ _ h3, lookupField_setField_ne _ _ _ _ h2,
    lookupField_setField_ne _ _ _ _ h1]

theorem lookupField_applyFields_not_mem (video : XmlNode) (fs : List (String × String))
    (o : List (String × Json)) (key : String) (h : key ∉ fs.map Prod.snd) :
    lookupField (applyFields video fs o) key = lookupField o key := by
  induction fs generalizing o with
  | nil => rfl
  | cons tf rest ih =>
      simp only [List.map_cons, List.mem_cons, not_or] at h
      cases hel : (getElementsByTagName video tf.1).head? with
      | some el =>
          rw [applyFields, hel, ih _ h.2, lookupField_setField_ne _ _ _ _ h.1]
      | none =>
          rw [applyFields, hel, ih _ h.2]

theorem lookupField_applyFields_head (video : XmlNode) (tag field : String)
    (rest : List (String × String)) (o : List (String × Json))
    (h : field ∉ rest.map Prod.snd) :
    lookupField (applyFields video ((tag, field) :: rest) o) field =
      match (getElementsByTagName video tag).head? with
      | some el => some (Json.str (textContent el))
      | none => lookupField o field := by
  cases hel : (getElementsByTagName video tag).head? with
  | some el =>
      rw [applyFields, hel, lookupField_applyFields_not_mem video rest _ field h,
        lookupField_setField_self]
  | none =>
      rw [applyFields, hel, lookupField_applyFields_not_mem video rest _ field h]

theorem getMember_parseVideo_play (video : XmlNode) :
    getMember (parseVideo video) "vod_play_url"
      = some (Json.str (String.intercalate "$$$" (collectPlay video).1)) ∧
    getMember (parseVideo video) "vod_play_from"
      = some (Json.str (String.intercalate "$$$" (collectPlay video).2)) := by
  unfold parseVideo
  constructor
  · rw [getMember_obj, lookupField_setField_ne _ _ _ _ (by decide), lookupField_setField_self]
  · rw [getMember_obj, lookupField_setField_self]

theorem getMember_parseVideo_vodId (video : XmlNode) :
    getMember (parseVideo video) "vod_id"
      = ((getElementsByTagName video "id").head?).map (fun el => Json.str (textContent el)) := by
  unfold parseVideo
  rw [getMember_obj, lookupField_setField_ne _ _ _ _ (by decide),
    lookupField_setField_ne _ _ _ _ (by decide)]
  unfold xmlFieldMap
  rw [lookupField_applyFields_head video "id" "vod_id" _ [] (by decide)]
  cases hel : (getElementsByTagName video "id").head? with
  | some el => rfl
  | none => rfl

theorem pushDds_length (dds : List XmlNode) (acc : List String × List String)
    (h : acc.1.length = acc.2.length) :
    (pushDds dds acc).1.length = (pushDds dds acc).2.length := by
  induction dds generalizing acc with
  | nil => exact h
  | cons dd rest ih =>
      rw [pushDds]
      by_cases hdd : (textContent dd == "") = true
      · rw [if_pos hdd]
        exact ih _ h
      · rw [if_neg hdd]
        refine ih _ ?_
        simp [h]

theorem pushDls_length (dls : List XmlNode) (acc : List String × List String)
    (h : acc.1.length = acc.2.length) :
    (pushDls dls acc).1.length = (pushDls dls acc).2.length := by
  induction dls generalizing acc with
  | nil => exact h
  | cons dl rest ih =>
      rw [pushDls]
      exact ih _ (pushDds_length _ _ h)

theorem lookupField_envelope (a b c d : Json) :
    lookupField [("code", a), ("list", b), ("page", c), ("pagecount", d)] "list" = some b ∧
    lookupField [("code", a), ("list", b), ("page", c), ("pagecount", d)] "page" = some c ∧
    lookupField [("code", a), ("list", b), ("page", c), ("pagecount", d)] "pagecount" = some d :=
  ⟨rfl, rfl, rfl⟩

theorem relaxedFit_three (count : Nat) : relaxedFit count 3 = true := by
  have h : ceilDiv count 3 * 3 - count ≤ 2 := by
    have h2 : (count + 3 - 1) / 3 * 3 ≤ count + 2 := by
      have h3 := Nat.div_mul_le_self (count + 2) 3
      have h4 : count + 3 - 1 = count + 2 := by omega
      rw [h4]
      exact h3
    unfold ceilDiv
    omega
  unfold relaxedFit
  simp only [Bool.or_eq_true, decide_eq_true_eq]
  exact Or.inr h

theorem second_pass_isSome (count : Nat) :
    (preferredCols.find? (fun cols => relaxedFit count cols)).isSome = true := by
  cases hf : preferredCols.find? (fun cols => relaxedFit count cols) with
  | some c => rfl
  | none =>
      have h3 := List.find?_eq_none.mp hf 3 (by decide)
      rw [relaxedFit_three] at h3
      exact absurd rfl h3

theorem colsMap_isSome_of_mem (c : Nat) (h : c ∈ preferredCols) :
    (colsMap c).isSome = true := by
  simp only [preferredCols, List.mem_cons, List.not_mem_nil, or_false] at h
  rcases h with rfl | rfl | rfl | rfl | rfl <;> rfl

end Otva

namespace Otva

/-! The claims. -/

/-- Claim C1: the normalization step always stamps a record's
`source_name` / `source_code` / `api_url` from the requesting source
descriptor, overwriting any upstream values of the same keys; and for the
JSON fixture `{list: [{vod_id: "1", vod_name: "A"}], pagecount: 3}` fetched
from source `{id: "s1", name: "Src", url: "http://x"}` the pipeline yields
exactly one record with those stamped fields, `vod_id` `"1"`, `vod_name`
`"A"`, and a page count of 3. -/
theorem normalizer_stamps_source :
    (∀ (api : VideoApi) (item : Json),
       getMember (normalizeItem api item) "source_name" = some (Json.str api.name) ∧
       getMember (normalizeItem api item) "source_code" = some (Json.str api.id) ∧
       getMember (normalizeItem api item) "api_url" = some (Json.str api.url)) ∧
    processData ⟨"s1", "Src", "http://x"⟩
        (Json.obj [("list", Json.arr [Json.obj [("vod_id", Json.str "1"), ("vod_name", Json.str "A")]]),
                   ("pagecount", Json.num 3)])
        initState
      = ⟨1, Json.num 3,
         [Json.obj [("vod_id", Json.str "1"), ("vod_name", Json.str "A"),
                    ("source_name", Json.str "Src"), ("source_code", Json.str "s1"),
                    ("api_url", Json.str "http://x")]]⟩ :=
  ⟨fun api item => getMember_normalizeItem_stamps api item, rfl⟩

/-- Claim C2: for every video element of every input document, the parallel
`playUrls` / `playFroms` sequences collected by the XML listing parser have
equal length (in particular both are empty with zero `dd` elements), and the
record the parser emits carries exactly their `"$$$"`-joins. -/
theorem play_sequences_parallel : ∀ video : XmlNode,
    (collectPlay video).1.length = (collectPlay video).2.length ∧
    getMember (parseVideo video) "vod_play_url"
      = some (Json.str (String.intercalate "$$$" (collectPlay video).1)) ∧
    getMember (parseVideo video) "vod_play_from"
      = some (Json.str (String.intercalate "$$$" (collectPlay video).2)) :=
  fun video => ⟨pushDls_length _ _ rfl, getMember_parseVideo_play video⟩

/-- Claim C3, amended: for count 7 the first pass finds no candidate in
{4,5,6,3,2} dividing 7, and the relaxed second pass accepts candidate 4
(rounding slack `ceil(7/4)*4 - 7 = 1 ≤ 2`), so the returned token's largest
breakpoint is 4 columns — not 5 as claimed, and not 7. -/
theorem columns_for_seven :
    preferredCols.find? (fun cols => (findDivisors 7).contains cols) = none ∧
    preferredCols.find? (fun cols => relaxedFit 7 cols) = some 4 ∧
    getOptimalColumns 7 = "grid-cols-2 sm:grid-cols-3 md:grid-cols-4 lg:grid-cols-4 xl:grid-cols-4" :=
  ⟨by decide, by decide, by decide⟩

/-- Claim C3, counterexample to the claim as stated: the selector's output
for count 7 is not the 5-column token the claim asserts (its largest
breakpoint is 4, per `columns_for_seven`). -/
theorem columns_for_seven_cex :
    getOptimalColumns 7 ≠ "grid-cols-2 sm:grid-cols-3 md:grid-cols-4 lg:grid-cols-5 xl:grid-cols-5" := by
  decide

/-- Claim C4, amended: a `dd` element whose text content is exactly the
empty string contributes no entry to either play sequence (whitespace-only
but non-empty content does contribute — see the counterexample); the
claim's example `<dd flag="x"></dd>` followed by `<dd flag="y">http://a</dd>`
yields exactly one entry in each sequence. -/
theorem empty_dd_not_pushed :
    (∀ (dd : XmlNode) (rest : List XmlNode) (acc : List String × List String),
       textContent dd = "" → pushDds (dd :: rest) acc = pushDds rest acc) ∧
    collectPlay (XmlNode.element "video" []
        [XmlNode.element "dl" []
          [XmlNode.element "dd" [("flag", "x")] [],
           XmlNode.element "dd" [("flag", "y")] [XmlNode.text "http://a"]]])
      = (["http://a"], ["y"]) := by
  constructor
  · intro dd rest acc h
    rw [pushDds, h]
    simp
  · rfl

/-- Witness for `empty_dd_not_pushed` at a concrete empty `dd` element. -/
theorem empty_dd_not_pushed_witness :
    pushDds [XmlNode.element "dd" [("flag", "x")] []] ([], []) = pushDds [] ([], []) ∧
    collectPlay (XmlNode.element "video" []
        [XmlNode.element "dl" []
          [XmlNode.element "dd" [("flag", "x")] [],
           XmlNode.element "dd" [("flag", "y")] [XmlNode.text "http://a"]]])
      = (["http://a"], ["y"]) :=
  ⟨empty_dd_not_pushed.1 (XmlNode.element "dd" [("flag", "x")] []) [] ([], []) rfl,
   empty_dd_not_pushed.2⟩

/-- Claim C4, counterexample to the claim as stated: a `dd` whose text
content is the single space `" "` (whitespace-only, non-empty) does
contribute an entry to both sequences — the source only skips entries whose
text is empty (`if (urls)`), it does not trim. -/
theorem whitespace_dd_pushed_cex :
    collectPlay (XmlNode.element "video" []
        [XmlNode.element "dl" [] [XmlNode.element "dd" [("flag", "x")] [XmlNode.text " "]]])
      = ([" "], ["x"]) ∧
    (collectPlay (XmlNode.element "video" []
        [XmlNode.element "dl" [] [XmlNode.element "dd" [("flag", "x")] [XmlNode.text " "]]])).1.length ≠ 0 :=
  ⟨rfl, by decide⟩

end Otva

namespace Otva

/-- Claim C5, amended: `page` and `pageCount` default to 1 when the XML
`list` element is absent, and `pageCount` defaults to 1 when its attribute is
absent (the attribute string defaults to `'1'` before `parseInt`); and the
caller's exposed page count is left unchanged whenever the payload's
`pagecount` is not truthy.  A present but non-numeric attribute however
parses to NaN rather than 1, and a negative numeric attribute is truthy and
is exposed, so the exposed page count is not always ≥ 1 (see the
counterexample). -/
theorem pagination_defaults :
    (∀ doc : XmlNode, (elementsByTag "list" doc).head? = none →
       getMember (parseXmlResponse doc) "page" = some (Json.num 1) ∧
       getMember (parseXmlResponse doc) "pagecount" = some (Json.num 1)) ∧
    (∀ (doc le : XmlNode), (elementsByTag "list" doc).head? = some le →
       getAttr le "pagecount" = none →
       getMember (parseXmlResponse doc) "pagecount" = some (Json.num 1)) ∧
    (∀ (api : VideoApi) (data : Json) (st : ComponentState),
       truthyOpt (getMember data "pagecount") = false →
       (processData api data st).pageCount = st.pageCount) := by
  refine ⟨?_, ?_, ?_⟩
  · intro doc h
    constructor
    · rw [parseXmlResponse, getMember_obj, (lookupField_envelope _ _ _ _).2.1, h]
      exact rfl
    · rw [parseXmlResponse, getMember_obj, (lookupField_envelope _ _ _ _).2.2, h]
      exact rfl
  · intro doc le h hattr
    rw [parseXmlResponse, getMember_obj, (lookupField_envelope _ _ _ _).2.2, h]
    show some (optIntToJson (parseIntJs (orElseStr (getAttr le "pagecount") "1"))) = some (Json.num 1)
    rw [hattr]
    exact rfl
  · intro api data st h
    rw [processData]
    by_cases ht : truthy data = true
    · rw [if_pos ht]
      cases hl : getMember data "list" with
      | none => rfl
      | some v =>
          cases v with
          | arr items =>
              cases hpc : getMember data "pagecount" with
              | none => simp [hpc]
              | some pc =>
                  have hpcf : truthy pc = false := by
                    rw [hpc] at h
                    exact h
                  simp [hpc, hpcf]
          | null => rfl
          | bool b => rfl
          | str s => rfl
          | num n => rfl
          | nan => rfl
          | obj fs => rfl
    · rw [if_neg ht]

/-- Witness for `pagination_defaults`: a document with no `list` element, a
`list` element with no `pagecount` attribute, and a payload whose
`pagecount` is absent (hence not truthy). -/
theorem pagination_defaults_witness :
    (getMember (parseXmlResponse (XmlNode.element "root" [] [])) "page" = some (Json.num 1) ∧
     getMember (parseXmlResponse (XmlNode.element "root" [] [])) "pagecount" = some (Json.num 1)) ∧
    getMember (parseXmlResponse (XmlNode.element "list" [] [])) "pagecount" = some (Json.num 1) ∧
    (processData ⟨"s", "S", "u"⟩ (Json.obj [("list", Json.arr [])]) initState).pageCount
      = initState.pageCount :=
  ⟨pagination_defaults.1 (XmlNode.element "root" [] []) rfl,
   pagination_defaults.2.1 (XmlNode.element "list" [] []) (XmlNode.element "list" [] []) rfl rfl,
   pagination_defaults.2.2 ⟨"s", "S", "u"⟩ (Json.obj [("list", Json.arr [])]) initState rfl⟩

/-- Claim C5, counterexample to the claim as stated: a `list` element with
`pagecount="abc"` parses to NaN (not to the claimed default 1), and a
`list` element with `pagecount="-5"` is parsed, is truthy, and is exposed to
the caller as page count -5, violating `pageCount ≥ 1`. -/
theorem pagination_claim_cex :
    getMember (parseXmlResponse (XmlNode.element "list" [("pagecount", "abc")] [])) "pagecount"
      = some Json.nan ∧
    (processData ⟨"s", "S", "u"⟩
        (parseXmlResponse (XmlNode.element "list" [("pagecount", "-5")] [])) initState).pageCount
      = Json.num (-5) ∧
    Json.nan ≠ Json.num 1 :=
  ⟨rfl, rfl, fun h => Json.noConfusion h⟩

/-- Claim C6: for every payload value whose `list` property is not an array,
the data-processing step (from the component's initial state) yields zero
records, leaves the page count at its default 1 and the current page at 1;
it is a total function, so no exception reaches the caller. -/
theorem json_shape_permissive : ∀ (api : VideoApi) (data : Json),
    isArrayOpt (getMember data "list") = false →
    (processData api data initState).videos = [] ∧
    (processData api data initState).pageCount = Json.num 1 ∧
    (processData api data initState).currentPage = 1 := by
  intro api data h
  rw [processData]
  by_cases ht : truthy data = true
  · rw [if_pos ht]
    cases hl : getMember data "list" with
    | none => exact ⟨rfl, rfl, rfl⟩
    | some v =>
        cases v with
        | arr items =>
            rw [hl] at h
            exact absurd h (by simp [isArrayOpt])
        | null => exact ⟨rfl, rfl, rfl⟩
        | bool b => exact ⟨rfl, rfl, rfl⟩
        | str s => exact ⟨rfl, rfl, rfl⟩
        | num n => exact ⟨rfl, rfl, rfl⟩
        | nan => exact ⟨rfl, rfl, rfl⟩
        | obj fs => exact ⟨rfl, rfl, rfl⟩
  · rw [if_neg ht]
    exact ⟨rfl, rfl, rfl⟩

/-- Witness for `json_shape_permissive` at the spec's fixture
`{ list: "not-an-array" }`. -/
theorem json_shape_permissive_witness :
    (processData ⟨"s1", "Src", "http://x"⟩
        (Json.obj [("list", Json.str "not-an-array")]) initState).videos = [] ∧
    (processData ⟨"s1", "Src", "http://x"⟩
        (Json.obj [("list", Json.str "not-an-array")]) initState).pageCount = Json.num 1 ∧
    (processData ⟨"s1", "Src", "http://x"⟩
        (Json.obj [("list", Json.str "not-an-array")]) initState).currentPage = 1 :=
  json_shape_permissive ⟨"s1", "Src", "http://x"⟩ (Json.obj [("list", Json.str "not-an-array")]) rfl

end Otva

namespace Otva

/-- Claim C7, amended: the post-response content check (content-type header
containing `xml`, falling back to sniffing for a leading XML declaration)
determines the parser only when the source URL contains the `/xml` marker;
when the URL lacks the marker, the response is parsed as JSON
unconditionally, so the response-based check does not always win. -/
theorem format_resolution_branches :
    (∀ apiUrl contentType text : String, strContains apiUrl "/xml" = true →
       resolveFormat apiUrl contentType text = authoritativeFormat contentType text) ∧
    (∀ apiUrl contentType text : String, strContains apiUrl "/xml" = false →
       resolveFormat apiUrl contentType text = DataFormat.json) := by
  constructor
  · intro u ct t h
    rw [resolveFormat, if_pos h, authoritativeFormat]
  · intro u ct t h
    rw [resolveFormat, if_neg (by rw [h]; exact Bool.false_ne_true)]

/-- Witness for `format_resolution_branches`: a URL with the `/xml` marker
whose response check is consulted, and a URL without it that is forced to
JSON. -/
theorem format_resolution_branches_witness :
    resolveFormat "http://e/xml/at/api.php" "text/html" "plain body" =
      authoritativeFormat "text/html" "plain body" ∧
    resolveFormat "http://e/api.php" "text/xml" "plain body" = DataFormat.json :=
  ⟨format_resolution_branches.1 "http://e/xml/at/api.php" "text/html" "plain body" (by decide),
   format_resolution_branches.2 "http://e/api.php" "text/xml" "plain body" (by decide)⟩

/-- Claim C7, counterexample to the claim as stated: a response that is XML
by the authoritative check (content-type `text/xml`, body starting with an
XML declaration) fetched from a URL without the `/xml` marker is
nevertheless handed to the JSON parser. -/
theorem format_check_cex :
    resolveFormat "http://e/api.php" "text/xml" "<?xml version=1.0?><list></list>" = DataFormat.json ∧
    authoritativeFormat "text/xml" "<?xml version=1.0?><list></list>" = DataFormat.xml :=
  ⟨by decide, by decide⟩

/-- Claim C8, amended: every record produced by the pipeline is stamped with
the requesting source's identity fields, and its `vod_id` is exactly the
upstream-provided value — for the XML path, the text content of the first
`id` descendant of the `video` element when one exists, and absent
otherwise; a non-empty `vod_id` is not guaranteed (see the
counterexample). -/
theorem vod_id_passthrough : ∀ (api : VideoApi) (video : XmlNode),
    getMember (normalizeItem api (parseVideo video)) "vod_id"
      = ((getElementsByTagName video "id").head?).map (fun el => Json.str (textContent el)) ∧
    getMember (normalizeItem api (parseVideo video)) "source_name" = some (Json.str api.name) ∧
    getMember (normalizeItem api (parseVideo video)) "source_code" = some (Json.str api.id) ∧
    getMember (normalizeItem api (parseVideo video)) "api_url" = some (Json.str api.url) := by
  intro api video
  refine ⟨?_, getMember_normalizeItem_stamps api (parseVideo video)⟩
  rw [getMember_normalizeItem_other api (parseVideo video) "vod_id" (by decide) (by decide) (by decide)]
  exact getMember_parseVideo_vodId video

/-- Claim C8, counterexample to the claim as stated: a `video` element with
no `id` child flows through the full XML path and normalization into a
record with no `vod_id` at all — the pipeline never checks or fills it. -/
theorem vod_id_cex :
    ((processData ⟨"s1", "Src", "http://x"⟩
        (parseXmlResponse (XmlNode.element "list" [] [XmlNode.element "video" [] []]))
        initState).videos.map (fun r => getMember r "vod_id")) = [none] := rfl

/-- Claim C9: for every input document, the XML listing parser returns
exactly one record per `video` element, in document order (the record list
is precisely the document-order map of `parseVideo`, so its length equals
the number of `video` elements). -/
theorem xml_parser_record_count : ∀ doc : XmlNode,
    getMember (parseXmlResponse doc) "list"
      = some (Json.arr ((elementsByTag "video" doc).map parseVideo)) ∧
    ((elementsByTag "video" doc).map parseVideo).length = (elementsByTag "video" doc).length := by
  intro doc
  exact ⟨rfl, List.length_map _ _⟩

/-- Claim C10: for every count ≥ 1 the relaxed second pass accepts some
candidate (candidate 3 always fits within the slack of 2), so the selector
returns the responsive token of a candidate from the preference list
{4,5,6,3,2} — one with a `colsMap` entry; the post-pass default fallback,
the 7- and 8-column map entries and the template-string fallback are never
used. -/
theorem grid_selector_total : ∀ count : Nat, 1 ≤ count →
    (preferredCols.find? (fun cols => relaxedFit count cols)).isSome = true ∧
    ∃ c, c ∈ preferredCols ∧ (colsMap c).isSome = true ∧
      getOptimalColumns count = getResponsiveCols c := by
  intro count hc
  refine ⟨second_pass_isSome count, ?_⟩
  rw [getOptimalColumns, if_neg (by omega)]
  cases h1 : preferredCols.find? (fun cols => (findDivisors count).contains cols) with
  | some c =>
      have hm : c ∈ preferredCols := List.mem_of_find?_eq_some h1
      exact ⟨c, hm, colsMap_isSome_of_mem c hm, rfl⟩
  | none =>
      cases h2 : preferredCols.find? (fun cols => relaxedFit count cols) with
      | some c =>
          have hm : c ∈ preferredCols := List.mem_of_find?_eq_some h2
          exact ⟨c, hm, colsMap_isSome_of_mem c hm, rfl⟩
      | none =>
          have := second_pass_isSome count
          rw [h2] at this
          exact absurd this (by simp)

/-- Witness for `grid_selector_total` at count 7. -/
theorem grid_selector_total_witness :
    (preferredCols.find? (fun cols => relaxedFit 7 cols)).isSome = true ∧
    ∃ c, c ∈ preferredCols ∧ (colsMap c).isSome = true ∧
      getOptimalColumns 7 = getResponsiveCols c :=
  grid_selector_total 7 (by decide)

end Otva
